import Mathlib

-- Shallow embedding of the cognivox pipeline (src-tauri/src/gemini_client.rs and
-- src-tauri/src/whisper_client.rs).  Machine floats (f32) are modelled as ℚ;
-- amplitude comparisons `rms(x) > θ` are embedded as `rmsSq x > θ * θ`, which is
-- equivalent for the nonnegative rms and positive thresholds of the source.
-- External collaborators (the HTTP transport, serde_json, the whisper engine,
-- the tauri event sink) are oracles: their outputs are explicit parameters.

-- ===========================================================================
-- Configuration constants (gemini_client.rs lines 16-26)
-- ===========================================================================

def MIN_REQUEST_INTERVAL_SECS : ℕ := 1

def INITIAL_BACKOFF_SECS : ℕ := 3

def MAX_BACKOFF_SECS : ℕ := 60

def RATE_LIMIT_CODES : List String := ["429", "RESOURCE_EXHAUSTED", "rate"]

def MIN_SPEECH_SECS : ℚ := 1/2

def SILENCE_TIMEOUT_SECS : ℚ := 3/2

def MAX_BATCH_SECS : ℚ := 15

def SPEECH_THRESHOLD : ℚ := 3/10000

def SILENCE_THRESHOLD : ℚ := 1/10000

-- ===========================================================================
-- String helpers: Rust `str::contains` (substring containment)
-- ===========================================================================

/-- Rust `haystack.contains(needle)`: some suffix of the haystack starts with
the needle. -/
def containsSub (hay pat : String) : Bool :=
  hay.toList.tails.any (fun t => pat.toList.isPrefixOf t)

/-- Rust `if text.len() > 200 { &text[..200] } else { &text }` (byte slicing
modelled on characters; the claims never exercise multi-byte text). -/
def truncate200 (s : String) : String :=
  if s.length > 200 then String.mk (s.toList.take 200) else s

/-- Rust `str::trim`: strip whitespace from both ends (character-level
embedding). -/
def trimChars (s : String) : String :=
  String.mk
    (((s.toList.dropWhile Char.isWhitespace).reverse.dropWhile
        Char.isWhitespace).reverse)

-- ===========================================================================
-- Gemini REST response model (gemini_client.rs lines 93-109), as produced by
-- serde_json; `Option RestResponseM` stands for the outcome of
-- `serde_json::from_str::<RestResponse>` on the body text.
-- ===========================================================================

structure ApiErrorM where
  message : Option String
  code : Option Int
deriving DecidableEq

structure ResponsePartM where
  text : Option String
deriving DecidableEq

structure CandidateContentM where
  parts : Option (List ResponsePartM)
deriving DecidableEq

structure CandidateM where
  content : Option CandidateContentM
deriving DecidableEq

structure RestResponseM where
  candidates : Option (List CandidateM)
  error : Option ApiErrorM
deriving DecidableEq

/-- The nested if-lets of gemini_client.rs lines 192-201: first candidate,
its content, its parts, first part, its text. -/
def extract_text (resp : RestResponseM) : Option String :=
  (((((resp.candidates.bind List.head?).bind CandidateM.content).bind
      CandidateContentM.parts).bind List.head?).bind ResponsePartM.text)

/-- The literal fallback JSON of gemini_client.rs line 204, returned when the
body parsed but no text could be extracted. -/
def FALLBACK_JSON : String :=
  "\x7b\"transcript\":\"\",\"tone\":\"NEUTRAL\",\"category\":[\"INFO\"],\"confidence\":0.3\x7d"

-- ===========================================================================
-- call_gemini_with_text: response classification and backoff update
-- (gemini_client.rs lines 170-208)
-- ===========================================================================

/-- gemini_client.rs lines 174-175: HTTP 429, or the body contains one of the
rate-limit markers. -/
def is_rate_limited (status : ℕ) (text : String) : Bool :=
  status == 429 || RATE_LIMIT_CODES.any (fun code => containsSub text code)

/-- The non-rate-limited tail of call_gemini_with_text (lines 188-208), after
backoff has been reset: classify the parsed body. -/
def parse_outcome (text : String) (parsed : Option RestResponseM) :
    Except String String :=
  match parsed with
  | some resp =>
    match resp.error with
    | some err => .error ("API: " ++ err.message.getD "")
    | none =>
      match extract_text resp with
      | some t => .ok t
      | none => .ok FALLBACK_JSON
  | none => .error ("Failed to parse API response: " ++ truncate200 text)

/-- Response handling of call_gemini_with_text (lines 170-208).  Returns the
new value of `backoff` (a u64, so doubling is mod 2^64; the reachable values
are ≤ 60) together with the `Result<String, String>`.  `parsed` is the oracle
outcome of serde_json on `text`. -/
def handle_response (status : ℕ) (text : String) (parsed : Option RestResponseM)
    (backoff : ℕ) : ℕ × Except String String :=
  if is_rate_limited status text then
    let b := min (max ((backoff * 2) % 2 ^ 64) INITIAL_BACKOFF_SECS) MAX_BACKOFF_SECS
    (b, .error ("Rate limited. Waiting " ++ toString b ++ "s before retry."))
  else
    (0, parse_outcome text parsed)

-- ===========================================================================
-- call_gemini_with_text: pre-call pacing (gemini_client.rs lines 131-146).
-- Instants are rational seconds.  The call stamps last_request after both
-- sleeps and immediately issues the request, so the issue time is:
-- ===========================================================================

/-- Time at which call_gemini_with_text issues its request (and the new value
of `last_request`), given the entry time `now`, the current `last_request`
stamp and the current backoff: sleep `min_interval - elapsed` when positive,
then sleep `backoff`, then stamp and send. -/
def call_issue_time (now last : ℚ) (backoff : ℕ) : ℚ :=
  max now (last + (MIN_REQUEST_INTERVAL_SECS : ℚ)) + (backoff : ℚ)

/-- Issue time of the single call made by one invocation of
process_transcript_with_gemini, whose fresh limiter state is
`backoff = 0, last_request = now - MIN_REQUEST_INTERVAL` (lines 306-307). -/
def ptwg_issue_time (now : ℚ) : ℚ :=
  call_issue_time now (now - (MIN_REQUEST_INTERVAL_SECS : ℚ)) 0

-- ===========================================================================
-- Events emitted to the tauri event sink (`app.emit`).  Status payloads that
-- interpolate formatted floats keep only their constant text; the intelligence
-- event of process_transcript_with_gemini additionally carries speaker and
-- timestamp metadata not modelled here (no claim mentions them).
-- ===========================================================================

inductive AppEvent where
  | status (msg : String)
  | whisper_transcription (text language : String) (confidence : ℚ)
  | gemini_intelligence (transcript intelligence : String)
  | api_error (code : ℕ) (msg : String)
deriving DecidableEq

-- ===========================================================================
-- Whisper transcription adapter (whisper_client.rs lines 118-175)
-- ===========================================================================

structure TranscriptionResult where
  text : String
  language : String
  confidence : ℚ
deriving DecidableEq

/-- Oracle for the whisper_rs collaborator inside transcribe_audio: whether
each fallible engine step succeeds, and the per-segment text results
(`none` = `full_get_segment_text(i)` returned Err and the segment is
skipped). -/
structure WhisperOracle where
  path_utf8 : Bool
  ctx_ok : Bool
  state_ok : Bool
  full_ok : Bool
  n_segments_ok : Bool
  segments : List (Option String)
deriving DecidableEq

/-- whisper_client.rs lines 118-175.  Error strings keep their constant text
(the interpolated engine diagnostics are elided).  On success the text is the
concatenation of the segment texts, trimmed, and the confidence is the literal
0.85 assigned at line 164. -/
def transcribe_audio (o : WhisperOracle) (language : String)
    (audio_samples : List ℚ) : Except String TranscriptionResult :=
  if o.path_utf8 = false then .error "Invalid model path"
  else if o.ctx_ok = false then .error "Failed to create Whisper context"
  else if o.state_ok = false then .error "Failed to create Whisper state"
  else if o.full_ok = false then .error "Transcription failed"
  else if o.n_segments_ok = false then .error "Failed to get segments"
  else
    let full_result := String.join (o.segments.filterMap id)
    .ok { text := trimChars full_result, language := language, confidence := 17/20 }

-- ===========================================================================
-- Session state and test_gemini_connection (gemini_client.rs lines 29-34 and
-- 216-283).  The HTTP exchange is an oracle.
-- ===========================================================================

structure GeminiStateM where
  api_key : Option String
  is_connected : Bool
  selected_model : String
deriving DecidableEq

inductive HttpOutcome where
  | response (status : ℕ) (body : String)
  | transport_error (msg : String)
deriving DecidableEq

/-- reqwest `StatusCode::is_success`: 2xx. -/
def is_success_status (s : ℕ) : Bool := 200 ≤ s && s < 300

/-- test_gemini_connection (lines 216-283): stores the key and the chosen
model into the session state first, then issues the test request and
classifies the outcome.  `is_connected` is written only on the success path.
Returns the updated state, the emitted events, and the command result. -/
def test_gemini_connection (st : GeminiStateM) (key : String)
    (model : Option String) (http : HttpOutcome) :
    GeminiStateM × List AppEvent × Except String String :=
  let st1 : GeminiStateM := { st with api_key := some key }
  let m := model.getD st1.selected_model
  let st2 : GeminiStateM := { st1 with selected_model := m }
  let evs : List AppEvent := [.status "Testing..."]
  match http with
  | .transport_error e => (st2, evs ++ [.status ("Failed: " ++ e)], .error e)
  | .response status _body =>
    if status = 429 then
      (st2, evs ++ [.status "Rate limited"], .error "Rate limited")
    else if status = 403 then
      (st2, evs ++ [.status "Quota exhausted"], .error "Quota exhausted")
    else if is_success_status status = false then
      (st2, evs ++ [.status ("HTTP " ++ toString status)],
        .error ("HTTP " ++ toString status))
    else
      ({ st2 with is_connected := true }, evs ++ [.status "Connected"],
        .ok ("Connected to " ++ m))

-- ===========================================================================
-- process_transcript_with_gemini (gemini_client.rs lines 289-334).  The
-- Gemini call outcome is an oracle (the command builds a FRESH limiter state
-- for the call; see ptwg_issue_time for its pacing).
-- ===========================================================================

/-- process_transcript_with_gemini: returns the emitted events and the
command result.  On a missing key it returns early with no events; on a
Gemini error it emits a status and an api_error event — and no
gemini_intelligence event. -/
def process_transcript_with_gemini (api_key : Option String) (_model : String)
    (transcript : String) (_speaker : Option String)
    (gemini : Except String String) : List AppEvent × Except String String :=
  match api_key with
  | none => ([], .error "No API key configured")
  | some _ =>
    let evs : List AppEvent := [.status "Extracting intelligence from transcript..."]
    match gemini with
    | .ok response =>
      (evs ++ [.gemini_intelligence transcript response, .status "Ready"],
        .ok response)
    | .error e =>
      (evs ++ [.status ("Intelligence extraction error: " ++ e),
        .api_error (if containsSub e "429" then 429 else 500) e],
        .error e)

-- ===========================================================================
-- Speech segmenter and pipeline orchestrator: one iteration of the
-- smart_audio_loop (gemini_client.rs lines 373-575).  A tick is atomic; the
-- states of the embedded transition system are the loop-head states.
-- ===========================================================================

/-- rms of gemini_client.rs lines 115-118, squared (no square root): mean of
the squared samples; 0 on the empty chunk. -/
def rmsSq (samples : List ℚ) : ℚ :=
  if samples = [] then 0
  else (samples.map (fun s => s * s)).sum / (samples.length : ℚ)

/-- Segmenter state of the loop: the utterance buffer and the speaking flag
with its two timestamps (lines 352-355). -/
structure SegState where
  buffer : List ℚ
  speaking : Bool
  speech_start : Option ℚ
  last_speech : Option ℚ
deriving DecidableEq

deriving instance DecidableEq for Except

/-- The fallback intelligence JSON built inline at gemini_client.rs lines
540-542 when the Gemini call fails: the transcript with double quotes turned
into single quotes and newlines into spaces, wrapped in a fixed payload. -/
def loop_fallback_json (t : String) : String :=
  "\x7b\"transcript\":\"" ++ ((t.replace "\"" "\x27").replace "\n" " ") ++
    "\",\"tone\":\"NEUTRAL\",\"category\":[\"INFO\"],\"confidence\":0.5\x7d"

/-- External collaborators consulted during one tick's processing branch:
whisper session state, the transcription outcome, the Gemini session state
and the analysis call outcome. -/
structure TickEnv where
  whisper_init : Bool
  model_path : Option String
  language : String
  stt : Except String TranscriptionResult
  api_key : Option String
  model : String
  gemini : Except String String
deriving DecidableEq

/-- Speech-detection step of a tick (lines 383-412): classify the drained
chunk `new` by (squared) rms against the (squared) thresholds and update the
buffer and timestamps.  Also returns the events emitted here. -/
def ingest_chunk (now : ℚ) (st : SegState) (new : List ℚ) :
    SegState × List AppEvent :=
  if new = [] then (st, [])
  else
    let lvl := rmsSq new
    if lvl > SPEECH_THRESHOLD * SPEECH_THRESHOLD then
      ({ buffer := st.buffer ++ new, speaking := true,
         speech_start := if st.speaking then st.speech_start else some now,
         last_speech := some now },
       if st.speaking then [] else [.status "Speech detected..."])
    else if lvl > SILENCE_THRESHOLD * SILENCE_THRESHOLD ∧ st.speaking then
      ({ st with buffer := st.buffer ++ new, last_speech := some now }, [])
    else if st.speaking then
      ({ st with buffer := st.buffer ++ new }, [])
    else (st, [])

/-- `speech_start.map(|s| s.elapsed()).unwrap_or(0.0)` (line 419). -/
def utter_duration (now : ℚ) (st : SegState) : ℚ :=
  match st.speech_start with
  | some s => now - s
  | none => 0

/-- `last_speech.map(|s| s.elapsed()).unwrap_or(0.0)` (line 420). -/
def silence_duration (now : ℚ) (st : SegState) : ℚ :=
  match st.last_speech with
  | some s => now - s
  | none => 0

/-- Readiness predicate of lines 418-429, evaluated on every tick. -/
def should_process_b (now : ℚ) (st : SegState) : Bool :=
  st.speaking && !st.buffer.isEmpty &&
    decide ((utter_duration now st ≥ MIN_SPEECH_SECS ∧
             silence_duration now st ≥ SILENCE_TIMEOUT_SECS) ∨
            utter_duration now st ≥ MAX_BATCH_SECS)

/-- Result of one tick: the segmenter state, the emitted events, the flushed
utterance when the processing branch was entered with an adequate duration,
and whether the transcription / analysis collaborators were invoked. -/
structure StageOut where
  state : SegState
  events : List AppEvent
  flushed : Option (List ℚ)
  stt_called : Bool
  gemini_called : Bool
deriving DecidableEq

/-- The flush continuation of the processing branch (lines 435-560): the
utterance `utt` has been taken out of the buffer and the segmenter reset;
run Whisper, then Gemini, mirroring every early `continue`. -/
def process_flush (env : TickEnv) (utt : List ℚ) : StageOut :=
  let st2 : SegState :=
    { buffer := [], speaking := false, speech_start := none, last_speech := none }
  let evs0 : List AppEvent := [.status "Whisper transcribing audio..."]
  if env.whisper_init = false then
        { state := st2, events := evs0 ++ [.status "Whisper not initialized"],
          flushed := some utt, stt_called := false, gemini_called := false }
      else
        match env.model_path with
        | none =>
          { state := st2, events := evs0 ++ [.status "Whisper model missing"],
            flushed := some utt, stt_called := false, gemini_called := false }
        | some _ =>
          match env.stt with
          | .error e =>
            { state := st2, events := evs0 ++ [.status ("Whisper error: " ++ e)],
              flushed := some utt, stt_called := true, gemini_called := false }
          | .ok result =>
            let evs1 := evs0 ++
              [.whisper_transcription result.text result.language result.confidence]
            if trimChars result.text = "" then
              { state := st2, events := evs1 ++ [.status "Listening for speech..."],
                flushed := some utt, stt_called := true, gemini_called := false }
            else
              let key := env.api_key.getD ""
              let evs2 := evs1 ++ [.status "Extracting intelligence..."]
              if key = "" then
                { state := st2,
                  events := evs2 ++ [.status "Error: No API key",
                    .api_error 401 "No API key configured"],
                  flushed := some utt, stt_called := true, gemini_called := false }
              else
                match env.gemini with
                | .ok response =>
                  { state := st2,
                    events := evs2 ++ [.gemini_intelligence result.text response,
                      .status "Listening for speech..."],
                    flushed := some utt, stt_called := true, gemini_called := true }
                | .error e =>
                  { state := st2,
                    events := evs2 ++
                      [.gemini_intelligence result.text (loop_fallback_json result.text),
                       .status ("Gemini error: " ++ e ++ ". Transcript saved."),
                       .api_error
                         (if containsSub e "429" || containsSub e "Rate limit" then 429
                          else 500) e,
                       .status "Listening for speech..."],
                    flushed := some utt, stt_called := true, gemini_called := true }

/-- The processing branch of a tick (lines 431-568): flush (duration at least
MIN_SPEECH_SECS) or silently discard the buffer. -/
def process_stage (env : TickEnv) (now : ℚ) (st : SegState) : StageOut :=
  if should_process_b now st ∧ st.buffer ≠ [] then
    if (st.buffer.length : ℚ) / 16000 ≥ MIN_SPEECH_SECS then
      process_flush env st.buffer
    else
      { state :=
          { buffer := [], speaking := false, speech_start := none, last_speech := none },
        events := [], flushed := none, stt_called := false, gemini_called := false }
  else
    { state := st, events := [], flushed := none, stt_called := false,
      gemini_called := false }

/-- The end-of-tick overflow guard (lines 570-574): drain from the FRONT down
to `MAX_BATCH_SECS * 16000 = 240000` samples. -/
def trim_buffer (b : List ℚ) : List ℚ :=
  if b.length > 240000 then b.drop (b.length - 240000) else b

/-- One full iteration of smart_audio_loop (lines 373-575): drain the chunk,
run the processing branch, apply the overflow guard. -/
def smart_tick (env : TickEnv) (now : ℚ) (st : SegState) (new : List ℚ) :
    StageOut :=
  let ing := ingest_chunk now st new
  let p := process_stage env now ing.1
  { state :=
      { buffer := trim_buffer p.state.buffer, speaking := p.state.speaking,
        speech_start := p.state.speech_start, last_speech := p.state.last_speech },
    events := ing.2 ++ p.events, flushed := p.flushed,
    stt_called := p.stt_called, gemini_called := p.gemini_called }

/-- Iterated ticks of the loop on a schedule of (time, drained chunk) pairs. -/
def run_ticks (env : TickEnv) : SegState → List (ℚ × List ℚ) → List StageOut
  | _, [] => []
  | st, (now, new) :: rest =>
    let out := smart_tick env now st new
    out :: run_ticks env out.state rest

/-- The loop's initial segmenter state (lines 352-355). -/
def seg_init : SegState :=
  { buffer := [], speaking := false, speech_start := none, last_speech := none }

-- ===========================================================================
-- Theorems
-- ===========================================================================

/-- C1: whenever a response is classified as rate-limited (HTTP 429 or body
containing a rate-limit marker), backoffSeconds becomes
max(backoffSeconds × 2, INITIAL_BACKOFF = 3) capped at MAX_BACKOFF = 60; three
consecutive rate-limited responses from backoff 0 give 3, 6, 12; and any
non-rate-limited response resets backoffSeconds to 0. -/
theorem backoff_update_and_reset :
    (∀ b status text parsed, b ≤ MAX_BACKOFF_SECS →
      is_rate_limited status text = true →
      (handle_response status text parsed b).1 =
        min (max (b * 2) INITIAL_BACKOFF_SECS) MAX_BACKOFF_SECS)
    ∧ (∀ b status text parsed, is_rate_limited status text = false →
      (handle_response status text parsed b).1 = 0)
    ∧ (handle_response 429 "" none 0).1 = 3
    ∧ (handle_response 429 "" none 3).1 = 6
    ∧ (handle_response 429 "" none 6).1 = 12 := by
  refine ⟨?_, ?_, by decide, by decide, by decide⟩
  · intro b status text parsed hb hrl
    simp only [MAX_BACKOFF_SECS] at hb
    simp [handle_response, hrl]
    simp only [INITIAL_BACKOFF_SECS, MAX_BACKOFF_SECS]
    omega
  · intro b status text parsed hrl
    simp [handle_response, hrl]

/-- Witness for C1 at backoff 6 (rate-limited) and backoff 7
(non-rate-limited). -/
theorem backoff_update_and_reset_w :
    (handle_response 429 "x" none 6).1 =
      min (max (6 * 2) INITIAL_BACKOFF_SECS) MAX_BACKOFF_SECS
    ∧ (handle_response 200 "ok" none 7).1 = 0 :=
  ⟨backoff_update_and_reset.1 6 429 "x" none (by decide) (by decide),
   backoff_update_and_reset.2.1 7 200 "ok" none (by decide)⟩

/-- C7 counterexample: a non-rate-limited, unparseable response entered with
backoff 3 yields the parse-error outcome but RESETS backoff to 0 — it is not
left unchanged at 3 as the claim states. -/
theorem parse_error_backoff_cex :
    (handle_response 200 "garbage" none 3).1 = 0
    ∧ (handle_response 200 "garbage" none 3).2 =
        .error "Failed to parse API response: garbage"
    ∧ (0 : ℕ) ≠ 3 := by decide

/-- C7 amended: a non-rate-limited response whose body cannot be parsed
returns the parse-error outcome and backoffSeconds is RESET TO 0 (the code
resets backoff before attempting to parse). -/
theorem parse_error_resets_backoff (status : ℕ) (text : String) (b : ℕ)
    (h : is_rate_limited status text = false) :
    handle_response status text none b =
      (0, .error ("Failed to parse API response: " ++ truncate200 text)) := by
  simp [handle_response, h, parse_outcome]

/-- Witness for the amended C7. -/
theorem parse_error_resets_backoff_w :
    handle_response 200 "bad body" none 5 =
      (0, .error ("Failed to parse API response: " ++ truncate200 "bad body")) :=
  parse_error_resets_backoff 200 "bad body" 5 (by decide)

/-- C2 amended: two consecutive calls that share the same limiter state (the
second entered with last_request equal to the stamp left by the first, as in
smart_audio_loop) are issued at least MIN_REQUEST_INTERVAL = 1 s apart; but
each invocation of process_transcript_with_gemini builds a FRESH limiter
state with last_request = now − MIN_REQUEST_INTERVAL, so its call is issued
immediately and no spacing is enforced across separate invocations. -/
theorem min_interval_pacing :
    (∀ (now1 last1 : ℚ) (b1 : ℕ) (now2 : ℚ) (b2 : ℕ),
      call_issue_time now2 (call_issue_time now1 last1 b1) b2 ≥
        call_issue_time now1 last1 b1 + (MIN_REQUEST_INTERVAL_SECS : ℚ))
    ∧ (∀ now : ℚ, ptwg_issue_time now = now) := by
  constructor
  · intro now1 last1 b1 now2 b2
    have hb : (0 : ℚ) ≤ (b2 : ℚ) := Nat.cast_nonneg b2
    have hm := le_max_right now2
      (call_issue_time now1 last1 b1 + (MIN_REQUEST_INTERVAL_SECS : ℚ))
    unfold call_issue_time at hm ⊢
    linarith
  · intro now
    unfold ptwg_issue_time call_issue_time
    norm_num

/-- C2 counterexample: two invocations of process_transcript_with_gemini
entered at times 0 and 1/2 issue their calls at times 0 and 1/2 — only half a
second apart, below MIN_REQUEST_INTERVAL = 1 s. -/
theorem min_interval_pacing_cex :
    ptwg_issue_time 0 = 0 ∧ ptwg_issue_time (1/2) = (1/2 : ℚ)
    ∧ ¬ ((1/2 : ℚ) - 0 ≥ (MIN_REQUEST_INTERVAL_SECS : ℚ)) := by
  refine ⟨?_, ?_, by norm_num [MIN_REQUEST_INTERVAL_SECS]⟩ <;>
    · unfold ptwg_issue_time call_issue_time
      norm_num

/-- C9: every successful transcribe_audio call returns confidence exactly
0.85 (= 17/20), a constant independent of the model path validity flags, the
language, the samples, and the engine's segment output. -/
theorem transcription_confidence_constant (o : WhisperOracle) (language : String)
    (audio_samples : List ℚ) (r : TranscriptionResult)
    (h : transcribe_audio o language audio_samples = .ok r) :
    r.confidence = 17/20 := by
  unfold transcribe_audio at h
  split_ifs at h <;> simp_all
  subst h
  rfl

/-- Witness for C9: a successful engine run with one segment. -/
theorem transcription_confidence_constant_w :
    ({ text := "hi", language := "en", confidence := 17/20 } :
      TranscriptionResult).confidence = 17/20 :=
  transcription_confidence_constant
    { path_utf8 := true, ctx_ok := true, state_ok := true, full_ok := true,
      n_segments_ok := true, segments := [some "hi"] }
    "en" [] _ (by rfl)

/-- C10: test_gemini_connection stores the supplied key and the chosen model
into the session state before issuing the request, so every failing test
(HTTP error status, rate limit, or transport failure) leaves api_key = the
new key and selected_model = the new choice while is_connected keeps its old
value; is_connected is true after the call iff the test succeeded or it was
already true (here: it is set to true exactly on a successful test). -/
theorem connection_test_state (st : GeminiStateM) (key : String)
    (model : Option String) (http : HttpOutcome)
    (e : String)
    (h : (test_gemini_connection st key model http).2.2 = .error e) :
    (test_gemini_connection st key model http).1.api_key = some key
    ∧ (test_gemini_connection st key model http).1.selected_model =
        model.getD st.selected_model
    ∧ (test_gemini_connection st key model http).1.is_connected =
        st.is_connected := by
  rcases http with ⟨status, body⟩ | msg
  · unfold test_gemini_connection at h ⊢
    dsimp only at h ⊢
    split_ifs at h ⊢ <;> simp_all
  · unfold test_gemini_connection at h ⊢
    simp_all

/-- Witness for C10: a 429-failing test with a fresh state. -/
theorem connection_test_state_w :
    (test_gemini_connection ⟨none, false, "m0"⟩ "k" (some "m1")
        (.response 429 "")).1.api_key = some "k"
    ∧ (test_gemini_connection ⟨none, false, "m0"⟩ "k" (some "m1")
        (.response 429 "")).1.selected_model = (some "m1").getD "m0"
    ∧ (test_gemini_connection ⟨none, false, "m0"⟩ "k" (some "m1")
        (.response 429 "")).1.is_connected = false :=
  connection_test_state ⟨none, false, "m0"⟩ "k" (some "m1") (.response 429 "")
    "Rate limited" (by decide)

-- Helper lemmas on the tick --------------------------------------------------

/-- The post-tick buffer is the trimmed processing-stage buffer. -/
lemma smart_tick_buffer (env : TickEnv) (now : ℚ) (st : SegState)
    (new : List ℚ) :
    (smart_tick env now st new).state.buffer =
      trim_buffer (process_stage env now (ingest_chunk now st new).1).state.buffer :=
  rfl

/-- The trimmed buffer has at most 240000 samples. -/
lemma trim_buffer_length (b : List ℚ) : (trim_buffer b).length ≤ 240000 := by
  unfold trim_buffer
  split_ifs with h
  · rw [List.length_drop]
    omega
  · omega

/-- Trimming only drops a front segment. -/
lemma trim_buffer_drop (b : List ℚ) : ∃ k, trim_buffer b = b.drop k := by
  unfold trim_buffer
  split_ifs with h
  · exact ⟨b.length - 240000, rfl⟩
  · exact ⟨0, (List.drop_zero b).symm⟩

/-- C3: after every iteration of the audio loop the utterance buffer holds at
most MAX_BATCH_SECS × 16000 = 240000 samples, and the end-of-tick overflow
guard only ever removes samples from the FRONT (the oldest ones): its result
is a drop of a prefix of the pre-trim buffer. -/
theorem buffer_cap_invariant :
    (∀ (env : TickEnv) (now : ℚ) (st : SegState) (new : List ℚ),
      (smart_tick env now st new).state.buffer.length ≤ 240000)
    ∧ (∀ b : List ℚ, ∃ k, trim_buffer b = b.drop k) := by
  constructor
  · intro env now st new
    rw [smart_tick_buffer]
    exact trim_buffer_length _
  · exact trim_buffer_drop

/-- C4: when the readiness predicate fires but the accumulated buffer is
shorter than MIN_SPEECH_SECS (0.5 s × 16000 samples), the tick silently
discards the buffer: no flush, no transcription, no analysis, no extra
events, and the segmenter resets to Idle (empty buffer, speaking false, both
timestamps None). -/
theorem short_utterance_discarded (env : TickEnv) (now : ℚ) (st : SegState)
    (new : List ℚ)
    (h1 : should_process_b now (ingest_chunk now st new).1 = true)
    (h2 : ((ingest_chunk now st new).1.buffer.length : ℚ) / 16000 <
      MIN_SPEECH_SECS) :
    (smart_tick env now st new).state = seg_init
    ∧ (smart_tick env now st new).flushed = none
    ∧ (smart_tick env now st new).stt_called = false
    ∧ (smart_tick env now st new).gemini_called = false
    ∧ (smart_tick env now st new).events = (ingest_chunk now st new).2 := by
  have hb : (ingest_chunk now st new).1.buffer ≠ [] := by
    intro hnil
    unfold should_process_b at h1
    rw [hnil] at h1
    simp at h1
  have hp : process_stage env now (ingest_chunk now st new).1 =
      { state := seg_init, events := [], flushed := none,
        stt_called := false, gemini_called := false } := by
    unfold process_stage
    rw [if_pos ⟨h1, hb⟩, if_neg (not_le.mpr h2)]
    rfl
  refine ⟨?_, ?_, ?_, ?_, ?_⟩ <;>
    simp [smart_tick, hp, trim_buffer, seg_init]

/-- If the transcription adapter was invoked, the tick took the flush path. -/
lemma process_stage_stt_inv (env : TickEnv) (now : ℚ) (st : SegState)
    (hs : (process_stage env now st).stt_called = true) :
    process_stage env now st = process_flush env st.buffer := by
  unfold process_stage at hs ⊢
  split_ifs at hs ⊢
  rfl

/-- If the analysis client was invoked, the tick took the flush path. -/
lemma process_stage_gem_inv (env : TickEnv) (now : ℚ) (st : SegState)
    (hg : (process_stage env now st).gemini_called = true) :
    process_stage env now st = process_flush env st.buffer := by
  unfold process_stage at hg ⊢
  split_ifs at hg ⊢
  rfl

/-- If the transcription adapter was invoked, whisper was initialized and the
model path was present. -/
lemma process_flush_called_inv (env : TickEnv) (utt : List ℚ)
    (hs : (process_flush env utt).stt_called = true) :
    env.whisper_init = true ∧ ∃ p, env.model_path = some p := by
  unfold process_flush at hs
  by_cases hw : env.whisper_init = false
  · rw [if_pos hw] at hs
    simp at hs
  · refine ⟨by simpa using hw, ?_⟩
    rw [if_neg hw] at hs
    rcases hm : env.model_path with _ | p
    · rw [hm] at hs
      simp at hs
    · exact ⟨p, rfl⟩

/-- The flush path on a failing transcription: one status event, utterance
dropped, Gemini never consulted. -/
lemma process_flush_stt_err (env : TickEnv) (utt : List ℚ) (e : String)
    (h : env.stt = .error e) (hw : env.whisper_init = true) (p : String)
    (hm : env.model_path = some p) :
    process_flush env utt =
      { state := seg_init,
        events := [.status "Whisper transcribing audio...",
                   .status ("Whisper error: " ++ e)],
        flushed := some utt, stt_called := true, gemini_called := false } := by
  unfold process_flush
  rw [hw, hm, h]
  simp [seg_init]

/-- The events produced while ingesting a chunk: nothing, or the single
speech-start status. -/
lemma ingest_chunk_events (now : ℚ) (st : SegState) (new : List ℚ) :
    (ingest_chunk now st new).2 = [] ∨
    (ingest_chunk now st new).2 = [.status "Speech detected..."] := by
  unfold ingest_chunk
  by_cases h1 : new = []
  · simp [h1]
  · rw [if_neg h1]
    by_cases h2 : rmsSq new > SPEECH_THRESHOLD * SPEECH_THRESHOLD
    · rw [if_pos h2]
      by_cases h3 : st.speaking <;> simp [h3]
    · rw [if_neg h2]
      by_cases h4 : rmsSq new > SILENCE_THRESHOLD * SILENCE_THRESHOLD ∧
          st.speaking = true
      · rw [if_pos h4]
        simp
      · rw [if_neg h4]
        by_cases h5 : st.speaking = true <;> simp [h5]

/-- C6: an utterance whose transcription fails never reaches the intelligence
stage: the analysis client is not called, a "Whisper error" status
notification is emitted, and the segmenter is back to Idle (Listening). -/
theorem stt_failure_skips_intelligence (env : TickEnv) (now : ℚ)
    (st : SegState) (new : List ℚ) (e : String)
    (h : env.stt = .error e)
    (hs : (smart_tick env now st new).stt_called = true) :
    (smart_tick env now st new).gemini_called = false
    ∧ (smart_tick env now st new).state = seg_init
    ∧ AppEvent.status ("Whisper error: " ++ e) ∈
        (smart_tick env now st new).events := by
  have hs' : (process_stage env now (ingest_chunk now st new).1).stt_called =
      true := hs
  have hp := process_stage_stt_inv _ _ _ hs'
  rw [hp] at hs'
  obtain ⟨hw, p, hm⟩ := process_flush_called_inv _ _ hs'
  have hf := process_flush_stt_err env (ingest_chunk now st new).1.buffer e h hw
    p hm
  refine ⟨?_, ?_, ?_⟩ <;>
    simp [smart_tick, hp, hf, trim_buffer, seg_init]

-- Concrete witness inputs ----------------------------------------------------

/-- A fully working environment: whisper ready, non-empty transcription,
API key present, Gemini succeeding. -/
def env_ok : TickEnv :=
  { whisper_init := true, model_path := some "ggml-base.bin", language := "en",
    stt := .ok { text := "hello", language := "en", confidence := 17/20 },
    api_key := some "key", model := "gemini", gemini := .ok "intel" }

/-- An environment whose transcription stage fails. -/
def env_stt_err : TickEnv :=
  { whisper_init := true, model_path := some "ggml-base.bin", language := "en",
    stt := .error "decode failed", api_key := some "key", model := "gemini",
    gemini := .ok "intel" }

/-- An environment whose analysis stage fails. -/
def env_gem_err : TickEnv :=
  { whisper_init := true, model_path := some "ggml-base.bin", language := "en",
    stt := .ok { text := "hello there", language := "en", confidence := 17/20 },
    api_key := some "key", model := "gemini", gemini := .error "boom" }

/-- A speaking segmenter holding exactly half a second of audio. -/
def st_half_sec : SegState :=
  { buffer := List.replicate 8000 ((1:ℚ)/10), speaking := true,
    speech_start := some 0, last_speech := some 0 }

/-- A speaking segmenter holding a single sample. -/
def st_tiny : SegState :=
  { buffer := [(1:ℚ)/10], speaking := true, speech_start := some 0,
    last_speech := some 0 }

/-- At time 2 the half-second state is ready (duration 2 ≥ 0.5, silence
2 ≥ 1.5) and long enough (8000/16000 = 0.5 ≥ 0.5): the tick flushes. -/
lemma st_half_sec_flush (env : TickEnv) :
    process_stage env 2 st_half_sec = process_flush env st_half_sec.buffer := by
  have hlen : st_half_sec.buffer.length = 8000 := List.length_replicate _ _
  have h1 : should_process_b 2 st_half_sec = true := by
    unfold should_process_b
    rw [show st_half_sec.speaking = true from rfl,
      show st_half_sec.buffer.isEmpty = false from rfl]
    simp only [Bool.not_false, Bool.true_and, Bool.and_true, decide_eq_true_eq]
    unfold utter_duration silence_duration
    rw [show st_half_sec.speech_start = some 0 from rfl,
      show st_half_sec.last_speech = some 0 from rfl]
    norm_num [MIN_SPEECH_SECS, SILENCE_TIMEOUT_SECS]
  have h2 : st_half_sec.buffer ≠ [] := by
    intro hnil
    rw [hnil] at hlen
    simp at hlen
  have h3 : ((st_half_sec.buffer.length : ℚ) / 16000) ≥ MIN_SPEECH_SECS := by
    rw [hlen]
    norm_num [MIN_SPEECH_SECS]
  unfold process_stage
  rw [if_pos ⟨h1, h2⟩, if_pos h3]

/-- Witness for C4: a single-sample utterance flushed by the MAX_BATCH
trigger at time 15 is discarded silently. -/
theorem short_utterance_discarded_w :
    (smart_tick env_ok 15 st_tiny []).state = seg_init
    ∧ (smart_tick env_ok 15 st_tiny []).flushed = none
    ∧ (smart_tick env_ok 15 st_tiny []).stt_called = false
    ∧ (smart_tick env_ok 15 st_tiny []).gemini_called = false
    ∧ (smart_tick env_ok 15 st_tiny []).events = (ingest_chunk 15 st_tiny []).2 :=
  short_utterance_discarded env_ok 15 st_tiny []
    (by
      show should_process_b 15 st_tiny = true
      unfold should_process_b
      rw [show st_tiny.speaking = true from rfl,
        show st_tiny.buffer.isEmpty = false from rfl]
      simp only [Bool.not_false, Bool.true_and, Bool.and_true,
        decide_eq_true_eq]
      unfold utter_duration silence_duration
      rw [show st_tiny.speech_start = some 0 from rfl,
        show st_tiny.last_speech = some 0 from rfl]
      norm_num [MAX_BATCH_SECS])
    (by
      show ((st_tiny.buffer.length : ℚ) / 16000) < MIN_SPEECH_SECS
      rw [show st_tiny.buffer.length = 1 from rfl]
      norm_num [MIN_SPEECH_SECS])

/-- Witness for C6: the half-second utterance at time 2 with a failing
transcription engine. -/
theorem stt_failure_skips_intelligence_w :
    (smart_tick env_stt_err 2 st_half_sec []).gemini_called = false
    ∧ (smart_tick env_stt_err 2 st_half_sec []).state = seg_init
    ∧ AppEvent.status ("Whisper error: " ++ "decode failed") ∈
        (smart_tick env_stt_err 2 st_half_sec []).events :=
  stt_failure_skips_intelligence env_stt_err 2 st_half_sec [] "decode failed"
    rfl
    (by
      show (process_stage env_stt_err 2 st_half_sec).stt_called = true
      rw [st_half_sec_flush env_stt_err]
      rfl)

/-- Recognizer for an intelligence-record event carrying transcript `tr`. -/
def is_intel_event (tr : String) : AppEvent → Bool
  | .gemini_intelligence t _ => t == tr
  | _ => false

/-- The flush path on a failing analysis call: the fallback
gemini_intelligence event still carries the transcript. -/
lemma process_flush_gem_err (env : TickEnv) (utt : List ℚ)
    (tr : TranscriptionResult) (e : String)
    (hstt : env.stt = .ok tr) (hg : env.gemini = .error e)
    (hgc : (process_flush env utt).gemini_called = true) :
    process_flush env utt =
      { state := seg_init,
        events := [.status "Whisper transcribing audio...",
          .whisper_transcription tr.text tr.language tr.confidence,
          .status "Extracting intelligence...",
          .gemini_intelligence tr.text (loop_fallback_json tr.text),
          .status ("Gemini error: " ++ e ++ ". Transcript saved."),
          .api_error
            (if containsSub e "429" || containsSub e "Rate limit" then 429
             else 500) e,
          .status "Listening for speech..."],
        flushed := some utt, stt_called := true, gemini_called := true } := by
  unfold process_flush at hgc ⊢
  rw [hstt, hg] at hgc ⊢
  rcases hm : env.model_path with _ | p
  · rw [hm] at hgc
    by_cases hw : env.whisper_init = false <;> simp_all
  · rw [hm] at hgc
    by_cases hw : env.whisper_init = false
    · simp_all
    · rw [if_neg hw] at hgc ⊢
      dsimp only at hgc ⊢
      split_ifs at hgc ⊢ <;> simp_all [seg_init]

/-- C5 amended: in the audio loop an analysis failure still emits exactly one
intelligence-record event, and that event carries the transcript (the
fallback of lines 539-543); but in process_transcript_with_gemini an
analysis failure emits NO intelligence-record event — it emits a status and
an api_error event and returns the error to the caller. -/
theorem intelligence_failure_preserves_transcript (env : TickEnv) (now : ℚ)
    (st : SegState) (new : List ℚ) (tr : TranscriptionResult) (e : String)
    (hstt : env.stt = .ok tr) (hg : env.gemini = .error e)
    (hgc : (smart_tick env now st new).gemini_called = true)
    (key model transcript : String) (speaker : Option String) (e2 : String) :
    (smart_tick env now st new).events.countP (is_intel_event tr.text) = 1
    ∧ (process_transcript_with_gemini (some key) model transcript speaker
        (.error e2)).1.countP (is_intel_event transcript) = 0
    ∧ (process_transcript_with_gemini (some key) model transcript speaker
        (.error e2)).2 = .error e2 := by
  have hgc' : (process_stage env now (ingest_chunk now st new).1).gemini_called =
      true := hgc
  have hp := process_stage_gem_inv _ _ _ hgc'
  rw [hp] at hgc'
  have hf := process_flush_gem_err env (ingest_chunk now st new).1.buffer tr e
    hstt hg hgc'
  refine ⟨?_, ?_, ?_⟩
  · show ((ingest_chunk now st new).2 ++
      (process_stage env now (ingest_chunk now st new).1).events).countP
        (is_intel_event tr.text) = 1
    rw [hp, hf, List.countP_append]
    rcases ingest_chunk_events now st new with h0 | h0 <;> rw [h0] <;>
      simp [is_intel_event]
  · unfold process_transcript_with_gemini
    simp [is_intel_event]
  · unfold process_transcript_with_gemini
    simp

/-- C5 counterexample: in process_transcript_with_gemini a failing analysis
call on the non-empty transcript "hello" emits ZERO intelligence-record
events (it emits only a status and an api_error event), refuting "the
pipeline still emits exactly one intelligence-record event". -/
theorem intelligence_failure_cex :
    (process_transcript_with_gemini (some "key") "gemini" "hello" none
      (.error "boom")).1.countP (is_intel_event "hello") = 0
    ∧ (process_transcript_with_gemini (some "key") "gemini" "hello" none
        (.error "boom")).1 =
      [.status "Extracting intelligence from transcript...",
       .status ("Intelligence extraction error: " ++ "boom"),
       .api_error 500 "boom"]
    ∧ "hello" ≠ "" := by
  refine ⟨by rfl, by decide, by decide⟩

/-- Witness for the amended C5: the half-second utterance at time 2 with a
failing Gemini call, and one failing command invocation. -/
theorem intelligence_failure_preserves_transcript_w :
    (smart_tick env_gem_err 2 st_half_sec []).events.countP
      (is_intel_event "hello there") = 1
    ∧ (process_transcript_with_gemini (some "key") "gemini" "hi there" none
        (.error "boom2")).1.countP (is_intel_event "hi there") = 0
    ∧ (process_transcript_with_gemini (some "key") "gemini" "hi there" none
        (.error "boom2")).2 = .error "boom2" :=
  intelligence_failure_preserves_transcript env_gem_err 2 st_half_sec []
    { text := "hello there", language := "en", confidence := 17/20 } "boom"
    rfl rfl
    (by
      show (process_stage env_gem_err 2 st_half_sec).gemini_called = true
      rw [st_half_sec_flush env_gem_err]
      rfl)
    "key" "gemini" "hi there" none "boom2"

-- ===========================================================================
-- C8: the 0.6 s speech / silence scenario, run through the loop embedding.
-- The capture collaborator delivers one 0.6 s above-threshold chunk at t=0.6,
-- then 0.5 s silence chunks at t=1.1, 1.6, 2.1, 2.6 (2.0 s of silence).
-- ===========================================================================

def speech_chunk : List ℚ := List.replicate 9600 ((1:ℚ)/10)

def silence_chunk : List ℚ := List.replicate 8000 (0:ℚ)

def c8_stream : List (ℚ × List ℚ) :=
  [(3/5, speech_chunk), (11/10, silence_chunk), (8/5, silence_chunk),
   (21/10, silence_chunk), (13/5, silence_chunk)]

/-- The utterance flushed at t = 2.1: the speech plus all retained trailing
silence, 33600 samples = 2.1 s. -/
def c8_flushed : List ℚ :=
  ((speech_chunk ++ silence_chunk) ++ silence_chunk) ++ silence_chunk

lemma replicate_ne_nil (n : ℕ) (a : ℚ) (hn : n ≠ 0) :
    List.replicate n a ≠ [] := by
  intro h
  have h2 := congrArg List.length h
  rw [List.length_replicate] at h2
  simp at h2
  exact hn h2

lemma rmsSq_replicate (n : ℕ) (a : ℚ) (hn : n ≠ 0) :
    rmsSq (List.replicate n a) = a * a := by
  unfold rmsSq
  rw [if_neg (replicate_ne_nil n a hn), List.map_replicate, List.sum_replicate,
    List.length_replicate, nsmul_eq_mul]
  have hc : (n : ℚ) ≠ 0 := Nat.cast_ne_zero.mpr hn
  field_simp

lemma rmsSq_speech : rmsSq speech_chunk = 1/100 := by
  rw [show speech_chunk = List.replicate 9600 ((1:ℚ)/10) from rfl,
    rmsSq_replicate _ _ (by norm_num)]
  norm_num

lemma rmsSq_silence : rmsSq silence_chunk = 0 := by
  rw [show silence_chunk = List.replicate 8000 (0:ℚ) from rfl,
    rmsSq_replicate _ _ (by norm_num)]
  norm_num

lemma speech_chunk_len : speech_chunk.length = 9600 :=
  List.length_replicate _ _

lemma silence_chunk_len : silence_chunk.length = 8000 :=
  List.length_replicate _ _

lemma c8_flushed_len : c8_flushed.length = 33600 := by
  unfold c8_flushed
  rw [List.length_append, List.length_append, List.length_append,
    speech_chunk_len, silence_chunk_len]

lemma trim_small (b : List ℚ) (h : b.length ≤ 240000) : trim_buffer b = b := by
  unfold trim_buffer
  rw [if_neg (by omega)]

/-- Ingesting the speech chunk from Idle starts an utterance. -/
lemma c8_ing1 : ingest_chunk (3/5) seg_init speech_chunk =
    ({ buffer := speech_chunk, speaking := true, speech_start := some (3/5),
       last_speech := some (3/5) }, [.status "Speech detected..."]) := by
  have hne : speech_chunk ≠ [] :=
    replicate_ne_nil 9600 ((1:ℚ)/10) (by norm_num)
  unfold ingest_chunk
  rw [if_neg hne]
  rw [if_pos (by rw [rmsSq_speech]; norm_num [SPEECH_THRESHOLD])]
  rfl

/-- Ingesting a silence chunk while Speaking appends it without refreshing
last_speech. -/
lemma c8_ing_silence (now t0 t1 : ℚ) (b : List ℚ) :
    ingest_chunk now
      { buffer := b, speaking := true, speech_start := some t0,
        last_speech := some t1 } silence_chunk =
      ({ buffer := b ++ silence_chunk, speaking := true,
         speech_start := some t0, last_speech := some t1 }, []) := by
  have hne : silence_chunk ≠ [] :=
    replicate_ne_nil 8000 (0:ℚ) (by norm_num)
  unfold ingest_chunk
  rw [if_neg hne]
  rw [if_neg (by rw [rmsSq_silence]; norm_num [SPEECH_THRESHOLD])]
  rw [if_neg (by
    intro hc
    rw [rmsSq_silence] at hc
    have h1 := hc.1
    norm_num [SILENCE_THRESHOLD] at h1)]
  rw [if_pos (rfl :
    (⟨b, true, some t0, some t1⟩ : SegState).speaking = true)]

/-- Ingesting a silence chunk while Idle discards it. -/
lemma c8_ing_idle (now : ℚ) :
    ingest_chunk now seg_init silence_chunk = (seg_init, []) := by
  have hne : silence_chunk ≠ [] :=
    replicate_ne_nil 8000 (0:ℚ) (by norm_num)
  unfold ingest_chunk
  rw [if_neg hne]
  rw [if_neg (by rw [rmsSq_silence]; norm_num [SPEECH_THRESHOLD])]
  rw [if_neg (by
    intro hc
    rw [rmsSq_silence] at hc
    have h1 := hc.1
    norm_num [SILENCE_THRESHOLD] at h1)]
  rw [if_neg (by
    show ¬seg_init.speaking = true
    simp [seg_init])]

/-- When the readiness predicate is false the processing branch passes the
state through untouched. -/
lemma process_stage_pass (env : TickEnv) (now : ℚ) (st : SegState)
    (h : should_process_b now st = false) :
    process_stage env now st =
      { state := st, events := [], flushed := none, stt_called := false,
        gemini_called := false } := by
  have hnc : ¬(should_process_b now st = true ∧ st.buffer ≠ []) := by
    intro hc
    rw [h] at hc
    exact absurd hc.1 (by simp)
  unfold process_stage
  rw [if_neg hnc]

/-- Readiness of a Speaking state with a nonempty buffer, in terms of the two
elapsed times. -/
lemma spb_speaking (now t0 t1 : ℚ) (b : List ℚ) (hb : b.isEmpty = false) :
    should_process_b now
        { buffer := b, speaking := true, speech_start := some t0,
          last_speech := some t1 } = true ↔
      ((now - t0 ≥ MIN_SPEECH_SECS ∧ now - t1 ≥ SILENCE_TIMEOUT_SECS) ∨
        now - t0 ≥ MAX_BATCH_SECS) := by
  unfold should_process_b utter_duration silence_duration
  simp [hb]

def c8_st1 : SegState :=
  { buffer := speech_chunk, speaking := true, speech_start := some (3/5),
    last_speech := some (3/5) }

def c8_st2 : SegState :=
  { buffer := speech_chunk ++ silence_chunk, speaking := true,
    speech_start := some (3/5), last_speech := some (3/5) }

def c8_st3 : SegState :=
  { buffer := (speech_chunk ++ silence_chunk) ++ silence_chunk,
    speaking := true, speech_start := some (3/5), last_speech := some (3/5) }

def c8_st4 : SegState :=
  { buffer := c8_flushed, speaking := true, speech_start := some (3/5),
    last_speech := some (3/5) }

lemma c8_spb1 : should_process_b (3/5) c8_st1 = false := by
  rw [Bool.eq_false_iff]
  intro h
  have h2 := (spb_speaking (3/5) (3/5) (3/5) speech_chunk rfl).mp h
  norm_num [MIN_SPEECH_SECS, SILENCE_TIMEOUT_SECS, MAX_BATCH_SECS] at h2

lemma c8_spb2 : should_process_b (11/10) c8_st2 = false := by
  rw [Bool.eq_false_iff]
  intro h
  have h2 := (spb_speaking (11/10) (3/5) (3/5) (speech_chunk ++ silence_chunk)
    rfl).mp h
  norm_num [MIN_SPEECH_SECS, SILENCE_TIMEOUT_SECS, MAX_BATCH_SECS] at h2

lemma c8_spb3 : should_process_b (8/5) c8_st3 = false := by
  rw [Bool.eq_false_iff]
  intro h
  have h2 := (spb_speaking (8/5) (3/5) (3/5)
    ((speech_chunk ++ silence_chunk) ++ silence_chunk) rfl).mp h
  norm_num [MIN_SPEECH_SECS, SILENCE_TIMEOUT_SECS, MAX_BATCH_SECS] at h2

lemma c8_spb4 : should_process_b (21/10) c8_st4 = true :=
  (spb_speaking (21/10) (3/5) (3/5) c8_flushed rfl).mpr
    (by norm_num [MIN_SPEECH_SECS, SILENCE_TIMEOUT_SECS])

lemma c8_ps4 : process_stage env_ok (21/10) c8_st4 =
    process_flush env_ok c8_flushed := by
  have hne : c8_st4.buffer ≠ [] := by
    intro h
    have h2 := congrArg List.length h
    rw [show c8_st4.buffer = c8_flushed from rfl, c8_flushed_len] at h2
    simp at h2
  have hdur : ((c8_st4.buffer.length : ℚ) / 16000) ≥ MIN_SPEECH_SECS := by
    rw [show c8_st4.buffer = c8_flushed from rfl, c8_flushed_len]
    norm_num [MIN_SPEECH_SECS]
  unfold process_stage
  rw [if_pos ⟨c8_spb4, hne⟩, if_pos hdur]
  rfl

/-- The flush at t = 2.1 with the fully working environment. -/
lemma c8_flush_eval : process_flush env_ok c8_flushed =
    { state := seg_init,
      events := [.status "Whisper transcribing audio...",
        .whisper_transcription "hello" "en" (17/20),
        .status "Extracting intelligence...",
        .gemini_intelligence "hello" "intel",
        .status "Listening for speech..."],
      flushed := some c8_flushed, stt_called := true,
      gemini_called := true } := by
  rfl

lemma c8_tick1 : smart_tick env_ok (3/5) seg_init speech_chunk =
    { state := c8_st1, events := [.status "Speech detected..."],
      flushed := none, stt_called := false, gemini_called := false } := by
  unfold smart_tick
  rw [show ingest_chunk (3/5) seg_init speech_chunk =
    (c8_st1, [.status "Speech detected..."]) from c8_ing1]
  dsimp only
  rw [process_stage_pass env_ok (3/5) c8_st1 c8_spb1]
  rw [show trim_buffer c8_st1.buffer = c8_st1.buffer from
    trim_small _ (by rw [show c8_st1.buffer = speech_chunk from rfl,
      speech_chunk_len]; norm_num)]
  rfl

lemma c8_tick2 : smart_tick env_ok (11/10) c8_st1 silence_chunk =
    { state := c8_st2, events := [], flushed := none, stt_called := false,
      gemini_called := false } := by
  unfold smart_tick
  rw [show ingest_chunk (11/10) c8_st1 silence_chunk = (c8_st2, []) from
    c8_ing_silence _ _ _ _]
  dsimp only
  rw [process_stage_pass env_ok (11/10) c8_st2 c8_spb2]
  have hb2 : c8_st2.buffer = speech_chunk ++ silence_chunk := rfl
  have hlen2 : c8_st2.buffer.length ≤ 240000 := by
    rw [hb2, List.length_append, speech_chunk_len, silence_chunk_len]
    norm_num
  rw [trim_small _ hlen2]
  rfl

lemma c8_tick3 : smart_tick env_ok (8/5) c8_st2 silence_chunk =
    { state := c8_st3, events := [], flushed := none, stt_called := false,
      gemini_called := false } := by
  unfold smart_tick
  rw [show ingest_chunk (8/5) c8_st2 silence_chunk = (c8_st3, []) from
    c8_ing_silence _ _ _ _]
  dsimp only
  rw [process_stage_pass env_ok (8/5) c8_st3 c8_spb3]
  have hb3 : c8_st3.buffer = (speech_chunk ++ silence_chunk) ++ silence_chunk :=
    rfl
  have hlen3 : c8_st3.buffer.length ≤ 240000 := by
    rw [hb3, List.length_append, List.length_append, speech_chunk_len,
      silence_chunk_len]
    norm_num
  rw [trim_small _ hlen3]
  rfl

lemma c8_tick4 : smart_tick env_ok (21/10) c8_st3 silence_chunk =
    { state := seg_init,
      events := [.status "Whisper transcribing audio...",
        .whisper_transcription "hello" "en" (17/20),
        .status "Extracting intelligence...",
        .gemini_intelligence "hello" "intel",
        .status "Listening for speech..."],
      flushed := some c8_flushed, stt_called := true,
      gemini_called := true } := by
  unfold smart_tick
  rw [show ingest_chunk (21/10) c8_st3 silence_chunk = (c8_st4, []) from
    c8_ing_silence _ _ _ _]
  dsimp only
  rw [c8_ps4, c8_flush_eval]
  rfl

lemma c8_tick5 : smart_tick env_ok (13/5) seg_init silence_chunk =
    { state := seg_init, events := [], flushed := none, stt_called := false,
      gemini_called := false } := by
  unfold smart_tick
  rw [c8_ing_idle]
  dsimp only
  rw [process_stage_pass env_ok (13/5) seg_init rfl]
  rfl

/-- The whole scenario run. -/
lemma c8_run : run_ticks env_ok seg_init c8_stream =
    [{ state := c8_st1, events := [.status "Speech detected..."],
       flushed := none, stt_called := false, gemini_called := false },
     { state := c8_st2, events := [], flushed := none, stt_called := false,
       gemini_called := false },
     { state := c8_st3, events := [], flushed := none, stt_called := false,
       gemini_called := false },
     { state := seg_init,
       events := [.status "Whisper transcribing audio...",
         .whisper_transcription "hello" "en" (17/20),
         .status "Extracting intelligence...",
         .gemini_intelligence "hello" "intel",
         .status "Listening for speech..."],
       flushed := some c8_flushed, stt_called := true, gemini_called := true },
     { state := seg_init, events := [], flushed := none, stt_called := false,
       gemini_called := false }] := by
  simp only [c8_stream, run_ticks, c8_tick1, c8_tick2, c8_tick3, c8_tick4,
    c8_tick5]

/-- C8 counterexample: on 0.6 s of above-threshold chunks followed by 2.0 s
of silence chunks, exactly one utterance is flushed and STT runs exactly
once — but the flushed utterance holds 33600 samples = 2.1 s (the 0.6 s of
speech plus the 1.5 s of trailing silence retained in the buffer until the
silence timeout), which is far from the claimed ≈0.6 s (not even within
double of it). -/
theorem segmentation_scenario_cex :
    (run_ticks env_ok seg_init c8_stream).countP (fun o => o.flushed.isSome) = 1
    ∧ (run_ticks env_ok seg_init c8_stream).countP (fun o => o.stt_called) = 1
    ∧ ((run_ticks env_ok seg_init c8_stream).filterMap StageOut.flushed).map
        List.length = [33600]
    ∧ ¬ ((33600 : ℚ) / 16000 ≤ 6/5) := by
  refine ⟨?_, ?_, ?_, by norm_num⟩ <;>
    simp [c8_run, c8_flushed_len]

/-- C8 amended: on that stream the segmenter flushes exactly one utterance
and invokes STT exactly once, and the flushed utterance's duration is 2.1 s:
the 0.6 s of speech plus the ≈1.5 s of trailing silence that the Speaking
state keeps appending until the silence timeout fires. -/
theorem segmentation_scenario_amended :
    (run_ticks env_ok seg_init c8_stream).countP (fun o => o.flushed.isSome) = 1
    ∧ (run_ticks env_ok seg_init c8_stream).countP (fun o => o.stt_called) = 1
    ∧ ((run_ticks env_ok seg_init c8_stream).filterMap StageOut.flushed).map
        (fun u => (u.length : ℚ) / 16000) = [21/10] := by
  refine ⟨?_, ?_, ?_⟩ <;>
    simp [c8_run, c8_flushed_len]
  norm_num
